import Mathlib

/-!
# Verification of the vault-registry rewards migration

Shallow embedding of `crates/vault-registry/src/migration.rs` (the
`vault_capacity::RewardsMigration` runtime upgrade) together with the pool
operations it invokes.  Storage maps are modelled as association lists,
balances as `ℤ`, and signed fixed-point values (`SignedFixedPoint`,
i.e. `FixedI128` with 18 decimals) as `ℚ` bounded by `fixedMax`.
A Rust panic (`unwrap` failure) of the runtime upgrade is modelled by the
migration returning `none`.
-/

set_option maxRecDepth 40000

attribute [local semireducible] Rat.add Rat.mul Rat.sub Rat.inv

namespace InterbtcMigration

/-- Currency identifiers (the runtime's `CurrencyId` enum, abstracted). -/
abbrev CurrencyId := Nat

/-- Account identifiers. -/
abbrev AccountId := Nat

/-! ## Association-list storage maps -/

/-- Lookup in an association-list storage map. -/
def alookup {α β : Type} [DecidableEq α] : List (α × β) → α → Option β
  | [], _ => none
  | (k, v) :: rest, k' => if k = k' then some v else alookup rest k'

/-- Lookup with a default, mirroring substrate's `ValueQuery` storage reads. -/
def agetD {α β : Type} [DecidableEq α] (m : List (α × β)) (k : α) (d : β) : β :=
  (alookup m k).getD d

/-- Insert-or-replace in an association-list storage map. -/
def ainsert {α β : Type} [DecidableEq α] : List (α × β) → α → β → List (α × β)
  | [], k, v => [(k, v)]
  | (k', v') :: rest, k, v =>
    if k' = k then (k, v) :: rest else (k', v') :: ainsert rest k v

/-! ## Fixed-point arithmetic

`SignedFixedPoint` is `FixedI128` with 18 decimal places: values are
rationals bounded in magnitude by `(2^127 - 1) / 10^18`.  Arithmetic is
checked: results out of range yield `none` (the Rust side's
`ArithmeticError::Overflow`/`Underflow`), and division by zero is guarded. -/

/-- Largest magnitude representable by the runtime's signed fixed point. -/
def fixedMax : ℚ := (2 ^ 127 - 1) / 10 ^ 18

/-- Checked fixed-point addition: fails when the result leaves the
representable range. -/
def checkedAddFP (a b : ℚ) : Option ℚ :=
  let r := a + b
  if -fixedMax ≤ r ∧ r ≤ fixedMax then some r else none

/-- Checked fixed-point multiplication: fails when the result leaves the
representable range. -/
def checkedMulFP (a b : ℚ) : Option ℚ :=
  let r := a * b
  if -fixedMax ≤ r ∧ r ≤ fixedMax then some r else none

/-- Truncation of a rational toward zero, as Rust integer division does. -/
def truncQ (q : ℚ) : ℤ := q.num.tdiv (q.den : ℤ)

/-- `Amount::from_signed_fixed_point`: truncate a fixed-point value to an
integer balance; fails (`TryIntoIntError`) when the truncation is negative. -/
def from_signed_fixed_point (q : ℚ) : Option ℤ :=
  let t := truncQ q
  if t < 0 then none else some t

/-- `Amount::checked_div` by a fixed-point scalar: fails on a zero divisor,
otherwise truncates the exact quotient to an integer balance. -/
def amount_div_fixed (a : ℤ) (f : ℚ) : Option ℤ :=
  if f = 0 then none else some (truncQ ((a : ℚ) / f))

/-! ## Data model -/

/-- `VaultId`: account plus the vault's currency pair
(`vault_id.collateral_currency()` / `vault_id.wrapped_currency()`). -/
structure VaultId where
  account_id : AccountId
  collateral_currency : CurrencyId
  wrapped_currency : CurrencyId
  deriving DecidableEq, Inhabited

/-- The fields of a stored `Vault` that the migration reads. -/
structure Vault where
  id : VaultId
  liquidated_collateral : ℤ
  deriving DecidableEq, Inhabited

/-- The five storage items of the old flat `VaultRewards` pool cleared by the
migration (`clear_reward_storage` is called once per item). -/
inductive V0StorageItem
  | totalStake
  | totalRewards
  | rewardPerToken
  | stake
  | rewardTally
  deriving DecidableEq, Inhabited

/-- Log events emitted by the migration (`log::error!` calls that the spec
cares about). -/
inductive LogEvent
  | skipError (vault : VaultId) (currency : CurrencyId)
  | cleared (item : V0StorageItem) (unique : Nat)
  | notCompletelyCleared (item : V0StorageItem)
  deriving DecidableEq, Inhabited

/-- On-chain state touched by the migration.  Each field is one storage item
(or pallet-config constant).  The `v0_*` fields are the old flat
`VaultRewards` pool; `reward_*` is the new vault-level rewards pool (pool id =
collateral currency, stake id = vault); `capacity_*` is the capacity pool
(pool id = `()`, stake id = collateral currency); `staking_*` /
`total_current_stake` / `nonce` belong to the nominator staking pallet. -/
structure State where
  /-- `StorageVersion` of the vault-registry pallet. -/
  storage_version : Nat
  /-- config constant `GetNativeCurrencyId`. -/
  native_currency_id : CurrencyId
  /-- config constant `GetWrappedCurrencyId`. -/
  wrapped_currency_id : CurrencyId
  /-- `vault_registry::Vaults`. -/
  vaults : List (VaultId × Vault)
  /-- `vault_registry::TotalUserVaultCollateral`, keyed by currency pair. -/
  total_user_vault_collateral : List ((CurrencyId × CurrencyId) × ℤ)
  /-- collateral of `vault_registry::LiquidationVault`, keyed by currency pair. -/
  liquidation_vault : List ((CurrencyId × CurrencyId) × ℤ)
  /-- `vault_registry::SecureCollateralThreshold`, keyed by currency pair. -/
  secure_collateral_threshold : List ((CurrencyId × CurrencyId) × ℚ)
  /-- `oracle::Aggregate`: exchange rate per collateral currency. -/
  aggregate : List (CurrencyId × ℚ)
  /-- old flat pool `VaultRewards::TotalStake`. -/
  v0_total_stake : List (Unit × ℚ)
  /-- old flat pool `VaultRewards::TotalRewards`, keyed by currency. -/
  v0_total_rewards : List (CurrencyId × ℚ)
  /-- old flat pool `VaultRewards::RewardPerToken`, keyed by currency. -/
  v0_reward_per_token : List (CurrencyId × ℚ)
  /-- old flat pool `VaultRewards::Stake`, keyed by vault. -/
  v0_stake : List (VaultId × ℚ)
  /-- old flat pool `VaultRewards::RewardTally`, keyed by (vault, currency). -/
  v0_reward_tally : List ((VaultId × CurrencyId) × ℚ)
  /-- `staking::Nonce` per vault (slashing epoch). -/
  nonce : List (VaultId × Nat)
  /-- `staking::Stake`, keyed by (nonce, vault, nominator). -/
  staking_stake : List ((Nat × VaultId × AccountId) × ℚ)
  /-- `staking::TotalCurrentStake`, keyed by (nonce, vault). -/
  total_current_stake : List ((Nat × VaultId) × ℚ)
  /-- `staking::RewardPerToken`, keyed by (currency, nonce, vault). -/
  staking_reward_per_token : List ((CurrencyId × Nat × VaultId) × ℚ)
  /-- `staking::TotalRewards`, keyed by (currency, vault). -/
  staking_total_rewards : List ((CurrencyId × VaultId) × ℚ)
  /-- new vault rewards pool `reward::Stake`, keyed by (currency, vault). -/
  reward_stake : List ((CurrencyId × VaultId) × ℚ)
  /-- new vault rewards pool `reward::TotalStake`, keyed by currency. -/
  reward_total_stake : List (CurrencyId × ℚ)
  /-- new vault rewards pool `reward::TotalRewards`, keyed by currency. -/
  reward_total_rewards : List (CurrencyId × ℚ)
  /-- new vault rewards pool `reward::RewardPerToken`, keyed by
  (pool currency, reward currency). -/
  reward_reward_per_token : List ((CurrencyId × CurrencyId) × ℚ)
  /-- new vault rewards pool `reward::RewardTally`, keyed by
  ((pool currency, vault), reward currency). -/
  reward_reward_tally : List (((CurrencyId × VaultId) × CurrencyId) × ℚ)
  /-- capacity pool `reward::Stake`, keyed by collateral currency. -/
  capacity_stake : List (CurrencyId × ℚ)
  /-- capacity pool `reward::TotalStake` (single pool `()`). -/
  capacity_total_stake : ℚ
  /-- capacity pool `reward::RewardPerToken`, keyed by reward currency. -/
  capacity_reward_per_token : List (CurrencyId × ℚ)
  /-- capacity pool `reward::RewardTally`, keyed by
  (collateral currency, reward currency). -/
  capacity_reward_tally : List ((CurrencyId × CurrencyId) × ℚ)
  deriving DecidableEq, Inhabited

/-! ## Pool operations used by the migration -/

/-- Current slashing nonce of a vault (`staking::Nonce`, default 0). -/
def nonceOf (s : State) (v : VaultId) : Nat :=
  agetD s.nonce v 0

/-- Modelled from the spec: `reward::migration::v0::compute_reward` of the old
flat pool (the reward pallet's v0 module is not in the tree).  Spec §4.1:
`stake[participant] * (reward_per_token[currency] - reward_tally)`, read-only,
with checked fixed-point multiplication. -/
def v0_compute_reward (s : State) (v : VaultId) (c : CurrencyId) : Option ℚ :=
  let stake := agetD s.v0_stake v 0
  let rpt := agetD s.v0_reward_per_token c 0
  let tally := agetD s.v0_reward_tally (v, c) 0
  checkedMulFP stake (rpt - tally)

/-- Modelled from the spec: `staking::Pallet::distribute_reward` (the staking
pallet is not in the tree).  Spec §4.1/§7: with zero total stake the reward is
silently dropped (not an error); otherwise `reward_per_token[currency] +=
amount / total_stake` and `TotalRewards` is increased, with checked
fixed-point additions failing on overflow. -/
def staking_distribute_reward (s : State) (c : CurrencyId) (v : VaultId)
    (reward : ℚ) : Option State :=
  let n := nonceOf s v
  let total := agetD s.total_current_stake (n, v) 0
  if total = 0 then some s
  else do
    let rpt := agetD s.staking_reward_per_token (c, n, v) 0
    let rpt' ← checkedAddFP rpt (reward / total)
    let tr := agetD s.staking_total_rewards (c, v) 0
    let tr' ← checkedAddFP tr reward
    some { s with
      staking_reward_per_token := ainsert s.staking_reward_per_token (c, n, v) rpt',
      staking_total_rewards := ainsert s.staking_total_rewards (c, v) tr' }

/-- `ext::staking::compute_stake`: a nominator's stake at the vault's current
nonce, truncated to a balance. -/
def compute_stake (s : State) (v : VaultId) (nom : AccountId) : Option ℤ :=
  from_signed_fixed_point (agetD s.staking_stake (nonceOf s v, v, nom) 0)

/-- `ext::staking::total_current_stake`: the vault's total stake at the
current nonce, truncated to a balance. -/
def staking_total_current_stake_amount (s : State) (v : VaultId) : Option ℤ :=
  from_signed_fixed_point (agetD s.total_current_stake (nonceOf s v, v) 0)

/-- `Pallet::get_vault_secure_threshold`: the secure collateral threshold for
the vault's currency pair; fails when unset. -/
def get_vault_secure_threshold (s : State) (v : VaultId) : Option ℚ :=
  alookup s.secure_collateral_threshold (v.collateral_currency, v.wrapped_currency)

/-- Settle the vault-pool reward tallies of stake id `vid` in pool `c` to the
pool's current reward-per-token values (spec §4.1: settlement on re-stake). -/
def settleVaultTallies (rpt : List ((CurrencyId × CurrencyId) × ℚ))
    (tally : List (((CurrencyId × VaultId) × CurrencyId) × ℚ))
    (c : CurrencyId) (vid : VaultId) :
    List (((CurrencyId × VaultId) × CurrencyId) × ℚ) :=
  rpt.foldl
    (fun t e => if e.1.1 = c then ainsert t ((c, vid), e.1.2) e.2 else t)
    tally

/-- Settle the capacity-pool reward tallies of stake id `c` to the pool's
current reward-per-token values. -/
def settleCapacityTallies (rpt : List (CurrencyId × ℚ))
    (tally : List ((CurrencyId × CurrencyId) × ℚ)) (c : CurrencyId) :
    List ((CurrencyId × CurrencyId) × ℚ) :=
  rpt.foldl (fun t e => ainsert t (c, e.1) e.2) tally

/-- Modelled from the spec: `pool_manager::PoolManager::update_reward_stake`
(the pool-manager module is not in the tree).  Spec §4.3 steps 1–2: the
vault-pool stake is re-staked to `collateral / secure_threshold` (an integer
balance, as the worked example and `post_upgrade`'s exact-equality assertions
require), and the capacity-pool stake for the collateral currency is re-staked
to the vault pool's total stake converted to the wrapped unit via the oracle
price.  Any lookup or checked-division failure aborts with `none`. -/
def update_reward_stake (s : State) (vid : VaultId) : Option State := do
  let c := vid.collateral_currency
  let tc ← staking_total_current_stake_amount s vid
  let th ← get_vault_secure_threshold s vid
  let newStake ← amount_div_fixed tc th
  let oldStake := agetD s.reward_stake (c, vid) 0
  let newTotal := agetD s.reward_total_stake c 0 + ((newStake : ℚ) - oldStake)
  let s1 : State := { s with
    reward_stake := ainsert s.reward_stake (c, vid) (newStake : ℚ),
    reward_total_stake := ainsert s.reward_total_stake c newTotal,
    reward_reward_tally :=
      settleVaultTallies s.reward_reward_per_token s.reward_reward_tally c vid }
  let totalAmt ← from_signed_fixed_point newTotal
  let p ← alookup s.aggregate c
  let capAmt ← amount_div_fixed totalAmt p
  let oldCap := agetD s1.capacity_stake c 0
  some { s1 with
    capacity_stake := ainsert s1.capacity_stake c (capAmt : ℚ),
    capacity_total_stake := s1.capacity_total_stake + ((capAmt : ℚ) - oldCap),
    capacity_reward_tally :=
      settleCapacityTallies s1.capacity_reward_per_token s1.capacity_reward_tally c }

/-! ## The migration (`RewardsMigration::on_runtime_upgrade`) -/

/-- One `distribute_reward` call of the migration's first loop
(migration.rs:127-144): compute the vault's old-pool reward for `c`
(`unwrap_or_default`, so a failed computation becomes 0) and distribute it on
the vault's staking pool; a distribution error is logged and skipped. -/
def distributePair (acc : State × List LogEvent) (v : VaultId) (c : CurrencyId) :
    State × List LogEvent :=
  let st := acc.1
  let reward := (v0_compute_reward st v c).getD 0
  match staking_distribute_reward st c v reward with
  | some st' => (st', acc.2)
  | none => (st, acc.2 ++ [LogEvent.skipError v c])

/-- The inner `for currency_id in [wrapped, native]` loop of
migration.rs:123-145, for one vault. -/
def distributeBoth (acc : State × List LogEvent) (v : VaultId) :
    State × List LogEvent :=
  [v.wrapped_currency, acc.1.native_currency_id].foldl
    (fun a c => distributePair a v c) acc

/-- The migration's first loop (migration.rs:119-146): iterate all vaults and
redistribute their old-pool rewards on the new staking pools. -/
def migrationRewardsStep (s : State) : State × List LogEvent :=
  (s.vaults.foldl (fun a e => distributeBoth a e.1) (s, []))

/-- Result record of `frame_support::migration::clear_storage_prefix`. -/
structure ClearResult where
  unique : Nat
  maybe_cursor : Option Nat
  deriving DecidableEq, Inhabited

/-- `clear_storage_prefix` on one storage map: with no limit everything is
removed and no cursor remains; with limit `n`, at most `n` entries are
removed and a cursor is returned when entries remain. -/
def clear_storage_items {α : Type} (l : List α) (limit : Option Nat) :
    List α × ClearResult :=
  match limit with
  | none => ([], { unique := l.length, maybe_cursor := none })
  | some n =>
    (l.drop n,
     { unique := min n l.length,
       maybe_cursor := if l.length ≤ n then none else some n })

/-- `clear_reward_storage` (migration.rs:16-29): clear one old-pool storage
item, log the number of cleared entries, and log an error when the clear did
not complete (a cursor remains). -/
def clear_reward_storage {α : Type} (item : V0StorageItem) (l : List α)
    (limit : Option Nat) : List α × List LogEvent :=
  let res := clear_storage_items l limit
  (res.1,
   [LogEvent.cleared item res.2.unique] ++
     (if res.2.maybe_cursor.isSome then [LogEvent.notCompletelyCleared item] else []))

/-- The migration's clearing step (migration.rs:151-155): clear the old flat
pool's five storage items, with no limit. -/
def migrationClearStep (s : State) : State × List LogEvent :=
  let r1 := clear_reward_storage V0StorageItem.totalStake s.v0_total_stake none
  let r2 := clear_reward_storage V0StorageItem.totalRewards s.v0_total_rewards none
  let r3 := clear_reward_storage V0StorageItem.rewardPerToken s.v0_reward_per_token none
  let r4 := clear_reward_storage V0StorageItem.stake s.v0_stake none
  let r5 := clear_reward_storage V0StorageItem.rewardTally s.v0_reward_tally none
  ({ s with
      v0_total_stake := r1.1
      v0_total_rewards := r2.1
      v0_reward_per_token := r3.1
      v0_stake := r4.1
      v0_reward_tally := r5.1 },
   r1.2 ++ r2.2 ++ r3.2 ++ r4.2 ++ r5.2)

/-- One iteration of the migration's second loop (migration.rs:157-186): the
`unwrap`ed total-stake read, threshold lookup and checked division, followed
by `PoolManager::update_reward_stake` — any failure panics the upgrade
(modelled by `none`). -/
def capacityRecomputeVault (s : State) (vid : VaultId) : Option State := do
  let tc ← staking_total_current_stake_amount s vid
  let th ← get_vault_secure_threshold s vid
  let _expected ← amount_div_fixed tc th
  update_reward_stake s vid

/-- The migration's second loop over a vault list. -/
def capacityRecomputeList (l : List (VaultId × Vault)) (s : State) : Option State :=
  l.foldlM (fun st e => capacityRecomputeVault st e.1) s

/-- The migration's second loop (migration.rs:157-186) over all vaults. -/
def migrationCapacityStep (s : State) : Option State :=
  capacityRecomputeList s.vaults s

/-- `RewardsMigration::on_runtime_upgrade` (migration.rs:102-192): guard on
storage version 0, redistribute old rewards, clear the old pool, recompute
capacity stakes, and persist storage version 1.  The returned state is the
storage after the upgrade; `none` models a panic of the upgrade.  The weight
accounting is not storage and is not modelled. -/
def on_runtime_upgrade (s : State) : Option State :=
  if s.storage_version ≠ 0 then some s
  else
    let s2 := (migrationRewardsStep s).1
    let s3 := (migrationClearStep s2).1
    (migrationCapacityStep s3).map fun s4 => { s4 with storage_version := 1 }

/-! ## `RewardsMigration::post_upgrade` verification checks

Each check block of migration.rs:195-379 is modelled as a `Bool`-valued
function; an `unwrap` failure inside a block (a panic of the try-runtime
hook) is modelled as the check returning `false`. -/

/-- Sum of `compute_stake` over all staking-stake entries whose vault has the
given collateral currency (migration.rs:259-269); `none` when any
`compute_stake` unwrap fails. -/
def nominatorCollateralSum (s : State) (cc : CurrencyId) : Option ℤ := do
  let stakes ← (s.staking_stake.filter
      (fun e => e.1.2.1.collateral_currency = cc)).mapM
    (fun e => compute_stake s e.1.2.1 e.1.2.2)
  pure (stakes.foldl (· + ·) 0)

/-- Sum of the liquidated collateral of all vaults with the given collateral
currency (migration.rs:270-274). -/
def liquidatedSum (s : State) (cc : CurrencyId) : ℤ :=
  (s.vaults.filter (fun e => e.1.collateral_currency = cc)).foldl
    (fun a e => a + e.2.liquidated_collateral) 0

/-- Collateral of the liquidation vault for a currency pair
(migration.rs:275-277). -/
def liqVaultCollateral (s : State) (pr : CurrencyId × CurrencyId) : ℤ :=
  agetD s.liquidation_vault pr 0

/-- One entry of the total-collateral check (migration.rs:258-299): the
tracked collateral must be within 100 units of nominator stakes plus
liquidated collateral plus the liquidation vault's collateral. -/
def collateralEntryOk (s : State) (pr : CurrencyId × CurrencyId) (expected : ℤ) :
    Bool :=
  match nominatorCollateralSum s pr.1 with
  | none => false
  | some nomSum =>
    let actual := nomSum + liquidatedSum s pr.1 + liqVaultCollateral s pr
    let diff := if expected > actual then expected - actual else actual - expected
    decide (diff ≤ 100)

/-- The total-collateral check block (migration.rs:257-299). -/
def checkCollateral (s : State) : Bool :=
  s.total_user_vault_collateral.all (fun e => collateralEntryOk s e.1 e.2)

/-- Sum of `compute_stake` over all staking-stake entries of one vault
(migration.rs:308-318); `none` when any `compute_stake` unwrap fails. -/
def nominatorStakeSum (s : State) (v : VaultId) : Option ℤ := do
  let stakes ← (s.staking_stake.filter (fun e => e.1.2.1 = v)).mapM
    (fun e => compute_stake s e.1.2.1 e.1.2.2)
  pure (stakes.foldl (· + ·) 0)

/-- One entry of the total-current-stake check (migration.rs:302-333): the
recorded total, truncated to a balance, must be within 1 unit of the sum of
the vault's nominator stakes. -/
def totalStakeEntryOk (s : State) (v : VaultId) (total : ℚ) : Bool :=
  match from_signed_fixed_point total, nominatorStakeSum s v with
  | some expected, some actual =>
    let diff := if expected > actual then expected - actual else actual - expected
    decide (diff ≤ 1)
  | _, _ => false

/-- The total-current-stake check block (migration.rs:301-333). -/
def checkTotalCurrentStake (s : State) : Bool :=
  s.total_current_stake.all (fun e => totalStakeEntryOk s e.1.2 e.2)

/-- Sum of the new vault-pool stakes in pool `c` (migration.rs:350-361). -/
def vaultPoolStakeSum (s : State) (c : CurrencyId) : ℚ :=
  (s.reward_stake.filter (fun e => e.1.1 = c)).foldl (fun a e => a + e.2) 0

/-- The reward-total-stake check block (migration.rs:349-364): each recorded
pool total equals the sum of the pool's individual stakes, exactly. -/
def checkRewardTotalStake (s : State) : Bool :=
  s.reward_total_stake.all (fun e => decide (e.2 = vaultPoolStakeSum s e.1))

/-- One entry of the capacity-stake check (migration.rs:367-376): the
capacity-pool stake, as a balance, equals the vault pool's total stake for
that currency converted to the wrapped unit via the oracle price. -/
def capacityEntryOk (s : State) (c : CurrencyId) (cap : ℚ) : Bool :=
  match from_signed_fixed_point cap,
      from_signed_fixed_point (agetD s.reward_total_stake c 0),
      alookup s.aggregate c with
  | some capAmt, some totalAmt, some p =>
    match amount_div_fixed totalAmt p with
    | some converted => decide (capAmt = converted)
    | none => false
  | _, _, _ => false

/-- The capacity-stake check block (migration.rs:366-376). -/
def checkCapacityStake (s : State) : Bool :=
  s.capacity_stake.all (fun e => capacityEntryOk s e.1 e.2)

/-! ## Spec-side restatement of the rewards loop

Definition following the spec's words (§4.4 step 2), to be compared with the
code-side fold `migrationRewardsStep`: for every vault, in order, compute the
old reward and distribute it for exactly the vault's wrapped currency and
then the native currency, skipping failures. -/

/-- Spec-side recursion over the vault list: each vault is processed for
exactly its wrapped currency and then the native currency. -/
def rewardsStepSpec : List (VaultId × Vault) → State × List LogEvent →
    State × List LogEvent
  | [], acc => acc
  | e :: rest, acc =>
    rewardsStepSpec rest
      (distributePair (distributePair acc e.1 e.1.wrapped_currency) e.1
        acc.1.native_currency_id)

/-! ## Helper lemmas -/

/-- The version guard: on any stored version other than 0 the migration
returns early with the state untouched. -/
theorem on_runtime_upgrade_of_ne_zero {s : State} (h : s.storage_version ≠ 0) :
    on_runtime_upgrade s = some s := by
  simp [on_runtime_upgrade, h]

/-- A completed migration from version 0 persists storage version 1. -/
theorem version_one_of_completed {s s' : State} (h0 : s.storage_version = 0)
    (h : on_runtime_upgrade s = some s') : s'.storage_version = 1 := by
  rw [on_runtime_upgrade] at h
  simp only [h0, ne_eq, not_true_eq_false, if_false] at h
  rw [Option.map_eq_some'] at h
  obtain ⟨s4, _, rfl⟩ := h
  rfl

/-! ## Concrete states used by witnesses and counterexamples -/

/-- A state with every storage item empty, at a given version, with a vault
registered when `withVault` is set. -/
def baseState (version : Nat) : State := {
  storage_version := version
  native_currency_id := 0
  wrapped_currency_id := 1
  vaults := []
  total_user_vault_collateral := []
  liquidation_vault := []
  secure_collateral_threshold := []
  aggregate := []
  v0_total_stake := []
  v0_total_rewards := []
  v0_reward_per_token := []
  v0_stake := []
  v0_reward_tally := []
  nonce := []
  staking_stake := []
  total_current_stake := []
  staking_reward_per_token := []
  staking_total_rewards := []
  reward_stake := []
  reward_total_stake := []
  reward_total_rewards := []
  reward_reward_per_token := []
  reward_reward_tally := []
  capacity_stake := []
  capacity_total_stake := 0
  capacity_reward_per_token := []
  capacity_reward_tally := []
}

/-- The vault used by the concrete scenarios: account 7, collateral currency
2, wrapped currency 1. -/
def vaultA : VaultId := ⟨7, 2, 1⟩

/-- The migration test scenario (migration.rs:406-475): one vault with 1000
collateral staked, old-pool stake 100, an old-pool distribution of 100 in the
wrapped currency, secure threshold 2 and oracle price 0.1, at version 0. -/
def testStateA : State := { baseState 0 with
  vaults := [(vaultA, ⟨vaultA, 0⟩)]
  total_user_vault_collateral := [((2, 1), 1000)]
  secure_collateral_threshold := [((2, 1), 2)]
  aggregate := [(2, 1/10)]
  v0_total_stake := [((), 100)]
  v0_total_rewards := [(1, 100)]
  v0_reward_per_token := [(1, 1)]
  v0_stake := [(vaultA, 100)]
  staking_stake := [((0, vaultA, 7), 1000)]
  total_current_stake := [((0, vaultA), 1000)] }

/-! ## C1 -/

/-- C1: for every storage state whose stored vault-registry storage version
is not 0, `on_runtime_upgrade` is a no-op: it returns early and the resulting
storage state is identical to the input (no reward redistribution, no
prefix-clear, no stake recompute). -/
theorem C1_version_guard_noop (s : State) (h : s.storage_version ≠ 0) :
    on_runtime_upgrade s = some s :=
  on_runtime_upgrade_of_ne_zero h

/-- State at storage version 3, for the C1 witness. -/
def c1State : State := { testStateA with storage_version := 3 }

/-- Witness for C1: on a concrete state at version 3 with a populated old
pool, the migration leaves the state unchanged. -/
theorem C1_version_guard_noop_witness :
    c1State.storage_version ≠ 0 ∧ on_runtime_upgrade c1State = some c1State :=
  ⟨by decide, C1_version_guard_noop c1State (by decide)⟩

/-! ## C2 -/

/-- C2: running `on_runtime_upgrade` twice in succession is idempotent:
whenever a run completes with state `s₁`, a second run returns `s₁`
unchanged (the first run either short-circuited on a non-zero version, or
persisted version 1, on which the guard short-circuits). -/
theorem C2_idempotent (s s₁ : State) (h : on_runtime_upgrade s = some s₁) :
    on_runtime_upgrade s₁ = some s₁ := by
  by_cases hv : s.storage_version = 0
  · have h1 : s₁.storage_version = 1 := version_one_of_completed hv h
    exact on_runtime_upgrade_of_ne_zero (by rw [h1]; decide)
  · rw [on_runtime_upgrade_of_ne_zero hv] at h
    obtain rfl : s = s₁ := by injection h
    exact on_runtime_upgrade_of_ne_zero hv

/-- The state after migrating `testStateA`. -/
def testStateA_after : State := (on_runtime_upgrade testStateA).getD (baseState 0)

/-- Witness for C2: on the concrete test scenario the first run completes and
the second run returns the resulting state unchanged. -/
theorem C2_idempotent_witness :
    on_runtime_upgrade testStateA = some testStateA_after ∧
      on_runtime_upgrade testStateA_after = some testStateA_after :=
  ⟨by decide, C2_idempotent testStateA testStateA_after (by decide)⟩

/-! ## C10 -/

/-- C10: whenever the migration runs from version 0 and completes, the stored
version becomes 1 unconditionally — regardless of any skipped
`distribute_reward` failures — and a re-run of the migration is a no-op, so
skipped rewards can never be redistributed by running the migration again. -/
theorem C10_version_set_unconditionally (s s' : State)
    (h0 : s.storage_version = 0) (h : on_runtime_upgrade s = some s') :
    s'.storage_version = 1 ∧ on_runtime_upgrade s' = some s' :=
  ⟨version_one_of_completed h0 h,
   on_runtime_upgrade_of_ne_zero (by rw [version_one_of_completed h0 h]; decide)⟩

/-- A version-0 state in which redistribution fails for the vault's wrapped
currency: the staking pool's reward-per-token accumulator is already at the
fixed-point maximum, so `distribute_reward` overflows, is logged and skipped,
while the capacity recompute still succeeds. -/
def c10State : State := { testStateA with
  staking_reward_per_token := [((1, 0, vaultA), fixedMax)] }

/-- The state after migrating `c10State`. -/
def c10StateAfter : State := (on_runtime_upgrade c10State).getD (baseState 0)

/-- Witness for C10: on the concrete state whose wrapped-currency
redistribution fails (a skip error is logged in the rewards step), the
migration still completes, persists version 1, and a second run is a no-op. -/
theorem C10_version_set_unconditionally_witness :
    c10State.storage_version = 0 ∧
      (migrationRewardsStep c10State).2 = [LogEvent.skipError vaultA 1] ∧
      on_runtime_upgrade c10State = some c10StateAfter ∧
      c10StateAfter.storage_version = 1 ∧
      on_runtime_upgrade c10StateAfter = some c10StateAfter :=
  ⟨by decide, by decide, by decide,
   (C10_version_set_unconditionally c10State c10StateAfter (by decide) (by decide)).1,
   (C10_version_set_unconditionally c10State c10StateAfter (by decide) (by decide)).2⟩

/-! ## Shape lemmas: which storage items each migration phase can touch -/

/-- `agetD` after `ainsert` at the same key returns the inserted value. -/
theorem agetD_ainsert_self {α β : Type} [DecidableEq α]
    (m : List (α × β)) (k : α) (v : β) (d : β) :
    agetD (ainsert m k v) k d = v := by
  induction m with
  | nil => simp [ainsert, agetD, alookup]
  | cons e rest ih =>
    by_cases h : e.1 = k
    · simp [ainsert, h, agetD, alookup]
    · simpa [ainsert, h, agetD, alookup] using ih

/-- A successful staking `distribute_reward` only writes the staking pool's
reward-per-token and total-rewards items. -/
theorem staking_distribute_shape {s : State} {c : CurrencyId} {v : VaultId}
    {r : ℚ} {s' : State} (h : staking_distribute_reward s c v r = some s') :
    ∃ a b, s' = { s with
      staking_reward_per_token := a, staking_total_rewards := b } := by
  simp only [staking_distribute_reward] at h
  split at h
  · refine ⟨s.staking_reward_per_token, s.staking_total_rewards, ?_⟩
    injection h with h
    subst h
    rfl
  · simp only [Option.bind_eq_bind', Option.bind_eq_some', Option.some.injEq] at h
    obtain ⟨a, _, b, _, hs⟩ := h
    exact ⟨_, _, hs.symm⟩

/-- One `distributePair` call only writes the staking pool's reward-per-token
and total-rewards items. -/
theorem distributePair_shape (acc : State × List LogEvent) (v : VaultId)
    (c : CurrencyId) :
    ∃ a b, (distributePair acc v c).1 = { acc.1 with
      staking_reward_per_token := a, staking_total_rewards := b } := by
  rcases h : staking_distribute_reward acc.1 c v
      ((v0_compute_reward acc.1 v c).getD 0) with _ | st'
  · refine ⟨acc.1.staking_reward_per_token, acc.1.staking_total_rewards, ?_⟩
    have hred : (distributePair acc v c).1 = acc.1 := by
      simp only [distributePair, h]
    rw [hred]
  · obtain ⟨a, b, hb⟩ := staking_distribute_shape h
    refine ⟨a, b, ?_⟩
    have hred : (distributePair acc v c).1 = st' := by
      simp only [distributePair, h]
    rw [hred, hb]

/-- One `distributeBoth` call only writes the staking pool's reward-per-token
and total-rewards items. -/
theorem distributeBoth_shape (acc : State × List LogEvent) (v : VaultId) :
    ∃ a b, (distributeBoth acc v).1 = { acc.1 with
      staking_reward_per_token := a, staking_total_rewards := b } := by
  obtain ⟨a, b, h1⟩ := distributePair_shape acc v v.wrapped_currency
  obtain ⟨a2, b2, h2⟩ :=
    distributePair_shape (distributePair acc v v.wrapped_currency) v
      acc.1.native_currency_id
  refine ⟨a2, b2, ?_⟩
  show (distributePair (distributePair acc v v.wrapped_currency) v
      acc.1.native_currency_id).1 = _
  rw [h2, h1]

/-- The whole rewards loop only writes the staking pool's reward-per-token
and total-rewards items. -/
theorem rewardsFold_shape (l : List (VaultId × Vault)) :
    ∀ acc : State × List LogEvent,
      ∃ a b, (l.foldl (fun x e => distributeBoth x e.1) acc).1 = { acc.1 with
        staking_reward_per_token := a, staking_total_rewards := b } := by
  induction l with
  | nil =>
    intro acc
    exact ⟨acc.1.staking_reward_per_token, acc.1.staking_total_rewards, rfl⟩
  | cons e rest ih =>
    intro acc
    obtain ⟨a, b, h1⟩ := distributeBoth_shape acc e.1
    obtain ⟨a2, b2, h2⟩ := ih (distributeBoth acc e.1)
    refine ⟨a2, b2, ?_⟩
    rw [List.foldl_cons, h2, h1]

/-- A successful `update_reward_stake` only writes the two new reward pools'
stake, total-stake and reward-tally items. -/
theorem update_reward_stake_shape {s : State} {vid : VaultId} {s' : State}
    (h : update_reward_stake s vid = some s') :
    ∃ a b c d e f, s' = { s with
      reward_stake := a, reward_total_stake := b, reward_reward_tally := c,
      capacity_stake := d, capacity_total_stake := e,
      capacity_reward_tally := f } := by
  simp only [update_reward_stake, Option.bind_eq_bind', Option.bind_eq_some',
    Option.some.injEq] at h
  obtain ⟨tc, _, th, _, q, _, t, _, p, _, u, _, hs⟩ := h
  exact ⟨_, _, _, _, _, _, hs.symm⟩

/-- A successful per-vault capacity recompute only writes the two new reward
pools' stake, total-stake and reward-tally items. -/
theorem capacityRecomputeVault_shape {s : State} {vid : VaultId} {s' : State}
    (h : capacityRecomputeVault s vid = some s') :
    ∃ a b c d e f, s' = { s with
      reward_stake := a, reward_total_stake := b, reward_reward_tally := c,
      capacity_stake := d, capacity_total_stake := e,
      capacity_reward_tally := f } := by
  simp only [capacityRecomputeVault, Option.bind_eq_bind', Option.bind_eq_some'] at h
  obtain ⟨tc, _, th, _, q, _, h4⟩ := h
  exact update_reward_stake_shape h4

/-- The whole capacity-recompute loop only writes the two new reward pools'
stake, total-stake and reward-tally items. -/
theorem capacityList_shape (l : List (VaultId × Vault)) :
    ∀ {s s' : State}, capacityRecomputeList l s = some s' →
      ∃ a b c d e f, s' = { s with
        reward_stake := a, reward_total_stake := b, reward_reward_tally := c,
        capacity_stake := d, capacity_total_stake := e,
        capacity_reward_tally := f } := by
  induction l with
  | nil =>
    intro s s' h
    refine ⟨s.reward_stake, s.reward_total_stake, s.reward_reward_tally,
      s.capacity_stake, s.capacity_total_stake, s.capacity_reward_tally, ?_⟩
    injection h with h
    subst h
    rfl
  | cons e rest ih =>
    intro s s' h
    rw [capacityRecomputeList, List.foldlM_cons] at h
    simp only [Option.bind_eq_bind', Option.bind_eq_some'] at h
    obtain ⟨s1, h1, h2⟩ := h
    obtain ⟨a, b, c, d, x, f, hs1⟩ := capacityRecomputeVault_shape h1
    obtain ⟨a2, b2, c2, d2, x2, f2, hs'⟩ := ih h2
    refine ⟨a2, b2, c2, d2, x2, f2, ?_⟩
    rw [hs', hs1]

/-- The clearing step empties exactly the old flat pool's five storage
items. -/
theorem migrationClearStep_fst (s : State) :
    (migrationClearStep s).1 = { s with
      v0_total_stake := [], v0_total_rewards := [], v0_reward_per_token := [],
      v0_stake := [], v0_reward_tally := [] } := rfl

/-- On version 0 the migration is the composition of the rewards loop, the
clearing step, the capacity loop and the version bump. -/
theorem on_runtime_upgrade_of_zero {s : State} (h0 : s.storage_version = 0) :
    on_runtime_upgrade s =
      (migrationCapacityStep (migrationClearStep (migrationRewardsStep s).1).1).map
        (fun s4 => { s4 with storage_version := 1 }) := by
  simp [on_runtime_upgrade, h0]

/-! ## C4 -/

/-- C4: a completed migration from version 0 empties exactly the old flat
pool's five storage items (total-stake, total-rewards, reward-per-token,
stake, reward-tally under the `VaultRewards` prefix) while leaving unrelated
maps such as `Vaults` and the staking stakes untouched, and any prefix-clear
that leaves a cursor is reported with an explicit error log rather than
silently ignored. -/
theorem C4_clear_old_pool (s s' : State) {α : Type} (l : List α)
    (item : V0StorageItem) (lim : Option Nat)
    (h0 : s.storage_version = 0) (h : on_runtime_upgrade s = some s') :
    s'.v0_total_stake = [] ∧ s'.v0_total_rewards = [] ∧
      s'.v0_reward_per_token = [] ∧ s'.v0_stake = [] ∧ s'.v0_reward_tally = [] ∧
      s'.vaults = s.vaults ∧ s'.staking_stake = s.staking_stake ∧
      (LogEvent.notCompletelyCleared item ∈ (clear_reward_storage item l lim).2 ↔
        ((clear_storage_items l lim).2.maybe_cursor).isSome = true) := by
  rw [on_runtime_upgrade_of_zero h0, Option.map_eq_some'] at h
  obtain ⟨s4, h4, rfl⟩ := h
  obtain ⟨a, b, hr⟩ : ∃ a b, (migrationRewardsStep s).1 = { s with
      staking_reward_per_token := a, staking_total_rewards := b } :=
    rewardsFold_shape s.vaults (s, [])
  obtain ⟨a2, b2, c2, d2, e2, f2, hs4⟩ := capacityList_shape _ h4
  have hmid : (migrationClearStep (migrationRewardsStep s).1).1 =
      { (migrationRewardsStep s).1 with
        v0_total_stake := [], v0_total_rewards := [], v0_reward_per_token := [],
        v0_stake := [], v0_reward_tally := [] } := migrationClearStep_fst _
  refine ⟨?_, ?_, ?_, ?_, ?_, ?_, ?_, ?_⟩
  · rw [hs4, hmid]
  · rw [hs4, hmid]
  · rw [hs4, hmid]
  · rw [hs4, hmid]
  · rw [hs4, hmid]
  · rw [hs4, hmid]
    show (migrationRewardsStep s).1.vaults = s.vaults
    rw [hr]
  · rw [hs4, hmid]
    show (migrationRewardsStep s).1.staking_stake = s.staking_stake
    rw [hr]
  · rcases hcur : (clear_storage_items l lim).2.maybe_cursor with _ | cur
    · simp [clear_reward_storage, hcur]
    · simp [clear_reward_storage, hcur]

/-- A version-0 state, with a populated old pool, for the C4 witness; its
migration completes. -/
def c4State : State := { testStateA with
  v0_reward_tally := [((vaultA, 1), 1/2)] }

/-- Witness for C4: on a concrete completing migration, the five old-pool
items end empty, `Vaults` and the staking stakes are untouched, and on a map
of three entries cleared with limit 2 the incomplete clear is reported. -/
theorem C4_clear_old_pool_witness :
    c4State.storage_version = 0 ∧
      on_runtime_upgrade c4State = some ((on_runtime_upgrade c4State).getD (baseState 0)) ∧
      (((on_runtime_upgrade c4State).getD (baseState 0)).v0_total_stake = [] ∧
        ((on_runtime_upgrade c4State).getD (baseState 0)).v0_total_rewards = [] ∧
        ((on_runtime_upgrade c4State).getD (baseState 0)).v0_reward_per_token = [] ∧
        ((on_runtime_upgrade c4State).getD (baseState 0)).v0_stake = [] ∧
        ((on_runtime_upgrade c4State).getD (baseState 0)).v0_reward_tally = [] ∧
        ((on_runtime_upgrade c4State).getD (baseState 0)).vaults = c4State.vaults ∧
        ((on_runtime_upgrade c4State).getD (baseState 0)).staking_stake =
          c4State.staking_stake ∧
        (LogEvent.notCompletelyCleared V0StorageItem.stake ∈
            (clear_reward_storage V0StorageItem.stake
              [(vaultA, (1 : ℚ)), (vaultA, 2), (vaultA, 3)] (some 2)).2 ↔
          ((clear_storage_items [(vaultA, (1 : ℚ)), (vaultA, 2), (vaultA, 3)]
              (some 2)).2.maybe_cursor).isSome = true)) :=
  ⟨by decide, by decide,
   C4_clear_old_pool c4State ((on_runtime_upgrade c4State).getD (baseState 0))
     [(vaultA, (1 : ℚ)), (vaultA, 2), (vaultA, 3)] V0StorageItem.stake (some 2)
     (by decide) (by decide)⟩

/-! ## C6 -/

/-- A version-0 state whose vault has no secure collateral threshold set:
the capacity-recompute step's threshold lookup fails. -/
def c6State : State := { testStateA with secure_collateral_threshold := [] }

/-- C6 (code bug): the claim says a failed threshold/price lookup or checked
division in the capacity-recompute step is returned as an error to the
immediate caller and never panics the whole system; the code instead calls
`unwrap` (migration.rs:160-167, marked `TODO: handle error, this is fatal`),
so on a concrete version-0 state with a missing secure threshold the whole
runtime upgrade panics (modelled by `none`) instead of returning an error. -/
theorem C6_capacity_error_panics :
    c6State.storage_version = 0 ∧
      get_vault_secure_threshold c6State vaultA = none ∧
      on_runtime_upgrade c6State = none := by
  refine ⟨by decide, by decide, by decide⟩

/-! ## C9 -/

/-- C9: when computing a vault's old-pool reward for a currency fails, the
migration's rewards loop behaves exactly as if the computation had returned
0: the error itself produces no log entry and is not propagated, and the
vault receives a `distribute_reward` of 0 for that currency. -/
theorem C9_compute_error_becomes_zero (acc : State × List LogEvent)
    (v : VaultId) (c : CurrencyId)
    (h : v0_compute_reward acc.1 v c = none) :
    distributePair acc v c =
      match staking_distribute_reward acc.1 c v 0 with
      | some st' => (st', acc.2)
      | none => (acc.1, acc.2 ++ [LogEvent.skipError v c]) := by
  simp only [distributePair, h, Option.getD_none]

/-- A state whose old-pool reward computation overflows for the wrapped
currency: stake and accumulator are both `10^15`, so the product exceeds the
fixed-point range. -/
def c9State : State := { testStateA with
  v0_stake := [(vaultA, 10 ^ 15)]
  v0_reward_per_token := [(1, 10 ^ 15)] }

/-- Witness for C9: on the concrete overflowing state the computation fails
and the loop distributes 0 (successfully, with no log entry). -/
theorem C9_compute_error_becomes_zero_witness :
    v0_compute_reward c9State vaultA 1 = none ∧
      distributePair (c9State, []) vaultA 1 =
        (match staking_distribute_reward c9State 1 vaultA 0 with
          | some st' => (st', [])
          | none => (c9State, [LogEvent.skipError vaultA 1])) ∧
      (staking_distribute_reward c9State 1 vaultA 0).isSome = true :=
  ⟨by decide, C9_compute_error_becomes_zero (c9State, []) vaultA 1 (by decide),
   by decide⟩

/-! ## C3 -/

/-- The code-side rewards fold equals the spec-side recursion: each vault is
processed for exactly its wrapped currency and then the native currency. -/
theorem rewardsFold_eq_spec (l : List (VaultId × Vault)) :
    ∀ acc, l.foldl (fun a e => distributeBoth a e.1) acc = rewardsStepSpec l acc := by
  induction l with
  | nil => intro acc; rfl
  | cons e rest ih =>
    intro acc
    rw [List.foldl_cons, ih]
    rfl

/-- C3: on version 0 the migration runs its rewards loop over every vault;
the loop processes each vault for exactly the two currencies (wrapped, then
native), distributing the old-pool reward on the new staking pool; a failing
`distribute_reward` is logged as a skip error and leaves the state unchanged,
and processing continues with the remaining vaults. -/
theorem C3_rewards_redistribution (s : State) (acc : State × List LogEvent)
    (v : VaultId) (vv : Vault) (rest : List (VaultId × Vault))
    (h0 : s.storage_version = 0)
    (hfail : staking_distribute_reward acc.1 v.wrapped_currency v
      ((v0_compute_reward acc.1 v v.wrapped_currency).getD 0) = none) :
    on_runtime_upgrade s =
      (migrationCapacityStep (migrationClearStep (migrationRewardsStep s).1).1).map
        (fun s4 => { s4 with storage_version := 1 }) ∧
    migrationRewardsStep s = rewardsStepSpec s.vaults (s, []) ∧
    distributePair acc v v.wrapped_currency =
      (acc.1, acc.2 ++ [LogEvent.skipError v v.wrapped_currency]) ∧
    List.foldl (fun a e => distributeBoth a e.1) acc ((v, vv) :: rest) =
      List.foldl (fun a e => distributeBoth a e.1) (distributeBoth acc v) rest := by
  refine ⟨on_runtime_upgrade_of_zero h0, ?_, ?_, List.foldl_cons _ _⟩
  · exact rewardsFold_eq_spec s.vaults (s, [])
  · simp only [distributePair, hfail]

/-- A version-0 state for the C3 witness. -/
def c3State : State := { testStateA with aggregate := [(2, 1/10), (9, 1)] }

/-- An intermediate loop state whose wrapped-currency distribution fails: the
staking accumulator is at the fixed-point maximum, so adding the old reward
overflows. -/
def c3Acc : State := { testStateA with
  staking_reward_per_token := [((1, 0, vaultA), fixedMax)]
  total_user_vault_collateral := [] }

/-- Witness for C3: the concrete version-0 state runs the rewards loop as the
spec recursion; on a concrete intermediate state the failed distribution is
logged and skipped and the loop continues with the rest of the vault list. -/
theorem C3_rewards_redistribution_witness :
    on_runtime_upgrade c3State =
      (migrationCapacityStep (migrationClearStep (migrationRewardsStep c3State).1).1).map
        (fun s4 => { s4 with storage_version := 1 }) ∧
    migrationRewardsStep c3State = rewardsStepSpec c3State.vaults (c3State, []) ∧
    distributePair (c3Acc, []) vaultA vaultA.wrapped_currency =
      (c3Acc, [LogEvent.skipError vaultA vaultA.wrapped_currency]) ∧
    List.foldl (fun (a : State × List LogEvent) (e : VaultId × Vault) =>
          distributeBoth a e.1) (c3Acc, [])
        [(vaultA, Vault.mk vaultA 0)] =
      List.foldl (fun (a : State × List LogEvent) (e : VaultId × Vault) =>
          distributeBoth a e.1)
        (distributeBoth (c3Acc, []) vaultA) [] :=
  C3_rewards_redistribution c3State (c3Acc, []) vaultA (Vault.mk vaultA 0) []
    (by decide) (by decide)

/-! ## C5 -/

/-- C5: for a vault processed by the migration's capacity-recompute step,
with fresh (empty) new pools, the vault-pool stake written for the vault
equals its total collateral divided by its secure threshold, and the
capacity-pool stake written for the vault's collateral currency equals that
quotient further divided by the oracle price. -/
theorem C5_capacity_recompute (s s' : State) (vid : VaultId) (tc : ℤ)
    (th p : ℚ) (q : ℤ)
    (htc : staking_total_current_stake_amount s vid = some tc)
    (hth : get_vault_secure_threshold s vid = some th)
    (hq : amount_div_fixed tc th = some q)
    (hp : alookup s.aggregate vid.collateral_currency = some p)
    (hfresh_total : agetD s.reward_total_stake vid.collateral_currency 0 = 0)
    (hfresh_stake : agetD s.reward_stake (vid.collateral_currency, vid) 0 = 0)
    (hrun : capacityRecomputeVault s vid = some s') :
    agetD s'.reward_stake (vid.collateral_currency, vid) 0 = (q : ℚ) ∧
    ∀ t u, from_signed_fixed_point ((q : ℚ)) = some t →
      amount_div_fixed t p = some u →
      agetD s'.capacity_stake vid.collateral_currency 0 = (u : ℚ) := by
  simp only [capacityRecomputeVault, Option.bind_eq_bind', Option.bind_eq_some'] at hrun
  obtain ⟨tc1, htc1, th1, hth1, q1, hq1, hupd⟩ := hrun
  rw [htc] at htc1
  injection htc1 with htc1
  subst htc1
  rw [hth] at hth1
  injection hth1 with hth1
  subst hth1
  rw [hq] at hq1
  injection hq1 with hq1
  subst hq1
  simp only [update_reward_stake, Option.bind_eq_bind', Option.bind_eq_some',
    Option.some.injEq] at hupd
  obtain ⟨tc2, htc2, th2, hth2, q2, hq2, t2, ht2, p2, hp2, u2, hu2, hs⟩ := hupd
  rw [htc] at htc2
  injection htc2 with htc2
  subst htc2
  rw [hth] at hth2
  injection hth2 with hth2
  subst hth2
  rw [hq] at hq2
  injection hq2 with hq2
  subst hq2
  rw [hp] at hp2
  injection hp2 with hp2
  subst hp2
  rw [hfresh_total, hfresh_stake, zero_add, sub_zero] at ht2
  subst hs
  constructor
  · show agetD (ainsert s.reward_stake (vid.collateral_currency, vid) ((q : ℚ)))
      (vid.collateral_currency, vid) 0 = (q : ℚ)
    exact agetD_ainsert_self _ _ _ _
  · intro t u ht hu
    rw [ht] at ht2
    injection ht2 with ht2
    subst ht2
    rw [hu] at hu2
    injection hu2 with hu2
    subst hu2
    show agetD (ainsert _ vid.collateral_currency ((u : ℚ)))
      vid.collateral_currency 0 = (u : ℚ)
    exact agetD_ainsert_self _ _ _ _

/-- A version-0 state for the C5 witness: staked collateral 1000, secure
threshold 2, oracle price 0.1, fresh new pools. -/
def c5State : State := { baseState 0 with
  vaults := [(vaultA, ⟨vaultA, 0⟩)]
  secure_collateral_threshold := [((2, 1), 2)]
  aggregate := [(2, 1/10)]
  staking_stake := [((0, vaultA, 7), 1000)]
  total_current_stake := [((0, vaultA), 1000)] }

/-- The state after the capacity recompute of `c5State`'s vault. -/
def c5After : State := (capacityRecomputeVault c5State vaultA).getD (baseState 0)

/-- Witness for C5: with collateral 1000, threshold 2 and price 0.1, the
vault-pool stake written is 500 and the capacity-pool stake is 5000, matching
the worked example. -/
theorem C5_capacity_recompute_witness :
    capacityRecomputeVault c5State vaultA = some c5After ∧
      agetD c5After.reward_stake (2, vaultA) 0 = ((500 : ℤ) : ℚ) ∧
      agetD c5After.capacity_stake 2 0 = ((5000 : ℤ) : ℚ) := by
  have h := C5_capacity_recompute c5State c5After vaultA 1000 2 (1/10) 500
    (by decide) (by decide) (by decide) (by decide) (by decide) (by decide)
    (by decide)
  exact ⟨by decide, h.1, h.2 500 5000 (by decide) (by decide)⟩

/-! ## C7 -/

/-- A version-0 state with two nominators holding one half unit of stake
each: the staking pool's recorded total (1, truncating to balance 1) differs
from the sum of the truncated nominator stakes (0 + 0), yet stays within the
1-unit tolerance that `post_upgrade` allows. -/
def c7cexState : State := { baseState 0 with
  vaults := [(vaultA, Vault.mk vaultA 0)]
  total_user_vault_collateral := [((2, 1), 1)]
  secure_collateral_threshold := [((2, 1), 2)]
  aggregate := [(2, 1/10)]
  staking_stake := [((0, vaultA, 7), 1/2), ((0, vaultA, 8), 1/2)]
  total_current_stake := [((0, vaultA), 1)] }

/-- The state after migrating `c7cexState`. -/
def c7cexAfter : State := (on_runtime_upgrade c7cexState).getD (baseState 0)

/-- Counterexample to C7 as stated: the migration from version 0 completes
and all of `post_upgrade`'s stake checks pass, yet for the vault the recorded
total current stake (balance 1) does not equal the sum of its individual
nominator stakes (balance 0) — the code only checks them within 1 unit. -/
theorem C7_counterexample :
    c7cexState.storage_version = 0 ∧
      on_runtime_upgrade c7cexState = some c7cexAfter ∧
      checkTotalCurrentStake c7cexAfter = true ∧
      checkRewardTotalStake c7cexAfter = true ∧
      checkCapacityStake c7cexAfter = true ∧
      ((0, vaultA), (1 : ℚ)) ∈ c7cexAfter.total_current_stake ∧
      from_signed_fixed_point ((1 : ℚ)) = some 1 ∧
      nominatorStakeSum c7cexAfter vaultA = some 0 ∧
      ¬ ((1 : ℤ) = 0) := by
  decide

/-- C7 (amended): after a completed migration from version 0 whose
`post_upgrade` stake checks pass, every recorded vault-pool total equals the
sum of that pool's individual vault stakes exactly, every capacity-pool stake
equals (as a balance) the vault pool's converted total stake, and every
recorded staking total current stake equals the sum of the vault's nominator
stakes to within 1 unit (not exactly, due to balance truncation). -/
theorem C7_post_upgrade_invariants (s s' : State)
    (h0 : s.storage_version = 0) (h1 : on_runtime_upgrade s = some s')
    (hB : checkTotalCurrentStake s' = true)
    (hD : checkRewardTotalStake s' = true)
    (hE : checkCapacityStake s' = true) :
    (∀ c total, (c, total) ∈ s'.reward_total_stake →
      total = vaultPoolStakeSum s' c) ∧
    (∀ c cap, (c, cap) ∈ s'.capacity_stake →
      ∀ totalAmt p conv,
        from_signed_fixed_point (agetD s'.reward_total_stake c 0) = some totalAmt →
        alookup s'.aggregate c = some p →
        amount_div_fixed totalAmt p = some conv →
        from_signed_fixed_point cap = some conv) ∧
    (∀ n v total, ((n, v), total) ∈ s'.total_current_stake →
      ∀ exp act, from_signed_fixed_point total = some exp →
        nominatorStakeSum s' v = some act → (exp - act).natAbs ≤ 1) := by
  refine ⟨?_, ?_, ?_⟩
  · intro c total hmem
    have hok := List.all_eq_true.mp hD (c, total) hmem
    simpa using hok
  · intro c cap hmem totalAmt p conv h2 h3 h4
    have hok := List.all_eq_true.mp hE (c, cap) hmem
    simp only [capacityEntryOk] at hok
    rcases hcap : from_signed_fixed_point cap with _ | capAmt
    · rw [hcap, h2, h3] at hok
      simp at hok
    · rw [hcap, h2, h3] at hok
      simp only [h4, decide_eq_true_eq] at hok
      rw [hok]
  · intro n v total hmem exp act hexp hact
    have hok := List.all_eq_true.mp hB ((n, v), total) hmem
    simp only [totalStakeEntryOk] at hok
    rw [hexp, hact] at hok
    simp only [decide_eq_true_eq] at hok
    split_ifs at hok <;> omega

/-- A concrete version-0 state for the C7 witness (the test scenario with an
explicit zero nonce entry). -/
def c7State : State := { testStateA with nonce := [(vaultA, 0)] }

/-- The state after migrating `c7State`. -/
def c7After : State := (on_runtime_upgrade c7State).getD (baseState 0)

/-- Witness for C7 (amended): on the concrete migrated test scenario the
vault-pool total 500 equals the sum of individual stakes, the capacity-pool
stake 5000 equals the converted total, and the staking total 1000 is within 1
of the nominator stake sum 1000. -/
theorem C7_post_upgrade_invariants_witness :
    ((2 : CurrencyId), (500 : ℚ)) ∈ c7After.reward_total_stake ∧
      (500 : ℚ) = vaultPoolStakeSum c7After 2 ∧
      from_signed_fixed_point ((5000 : ℚ)) = some 5000 ∧
      (((1000 : ℤ) - 1000).natAbs ≤ 1) := by
  have h := C7_post_upgrade_invariants c7State c7After (by decide) (by decide)
    (by decide) (by decide) (by decide)
  refine ⟨by decide, h.1 2 500 (by decide), ?_, ?_⟩
  · have h2 := h.2.1 2 5000 (by decide) 500 (1/10) 5000 (by decide) (by decide)
      (by decide)
    exact h2
  · exact h.2.2 0 vaultA 1000 (by decide) 1000 1000 (by decide) (by decide)

/-! ## C8 -/

/-- C8: after a completed migration whose `post_upgrade` collateral checks
pass, for every tracked currency pair the externally tracked total user vault
collateral equals the sum of nominator stakes plus liquidated collateral plus
the liquidation vault's collateral up to an absolute difference of 100 units,
and each vault's recorded total current stake is within 1 unit of its
nominator stake sum. -/
theorem C8_collateral_tolerance (s s' : State)
    (h0 : s.storage_version = 0) (h1 : on_runtime_upgrade s = some s')
    (hA : checkCollateral s' = true)
    (hB : checkTotalCurrentStake s' = true) :
    (∀ pr exp, (pr, exp) ∈ s'.total_user_vault_collateral →
      ∀ nomSum, nominatorCollateralSum s' pr.1 = some nomSum →
        (exp - (nomSum + liquidatedSum s' pr.1 + liqVaultCollateral s' pr)).natAbs
          ≤ 100) ∧
    (∀ n v total, ((n, v), total) ∈ s'.total_current_stake →
      ∀ exp act, from_signed_fixed_point total = some exp →
        nominatorStakeSum s' v = some act → (exp - act).natAbs ≤ 1) := by
  constructor
  · intro pr exp hmem nomSum hsum
    have hok := List.all_eq_true.mp hA (pr, exp) hmem
    simp only [collateralEntryOk] at hok
    rw [hsum] at hok
    simp only [decide_eq_true_eq] at hok
    split_ifs at hok <;> omega
  · intro n v total hmem exp act hexp hact
    have hok := List.all_eq_true.mp hB ((n, v), total) hmem
    simp only [totalStakeEntryOk] at hok
    rw [hexp, hact] at hok
    simp only [decide_eq_true_eq] at hok
    split_ifs at hok <;> omega

/-- A concrete version-0 state for the C8 witness (the test scenario with a
zero-collateral liquidation vault entry). -/
def c8State : State := { testStateA with liquidation_vault := [((2, 1), 0)] }

/-- The state after migrating `c8State`. -/
def c8After : State := (on_runtime_upgrade c8State).getD (baseState 0)

/-- Witness for C8: on the concrete migrated test scenario the tracked
collateral 1000 matches nominator stakes 1000 plus liquidated collateral 0
plus liquidation-vault collateral 0 within the tolerance, and the per-vault
stake total is within 1 unit. -/
theorem C8_collateral_tolerance_witness :
    (((2, 1), (1000 : ℤ)) ∈ c8After.total_user_vault_collateral ∧
      ((1000 : ℤ) - (1000 + liquidatedSum c8After 2 +
        liqVaultCollateral c8After (2, 1))).natAbs ≤ 100) ∧
      (((1000 : ℤ) - 1000).natAbs ≤ 1) := by
  have h := C8_collateral_tolerance c8State c8After (by decide) (by decide)
    (by decide) (by decide)
  refine ⟨⟨by decide, h.1 (2, 1) 1000 (by decide) 1000 (by decide)⟩, ?_⟩
  exact h.2 0 vaultA 1000 (by decide) 1000 1000 (by decide) (by decide)

end InterbtcMigration
